import Mathlib

/-!
Verification development for the photo triage core of the autocam
repository.

The embedding covers:
- the data model (types/index.ts: Photo, PhotoFilters, PhotoSortBy,
  SortOrder, PhotoSet);
- the Zustand photo store (stores/photo-store.ts): setPhotos, addPhoto,
  updatePhoto, navigation, filter and set actions, getFilteredPhotos;
- the set-transition API route (app/api/photos/crop/route.ts, the
  move-to-final POST and DELETE handlers over a database modelled as a
  list of photo rows);
- the triage control loop of the PhotoGrid component (the moveToFinalSet
  routine, the A-key handler, and its isMoving single-flight guard),
  modelled as step functions of a single-threaded event system.

Numbers that are JavaScript numbers (timestamps, scores, sizes,
indices) are modelled as Int; nothing proved here depends on
floating-point behaviour.  String ids stay String.  The photo row also
carries ownerId, standing for photo.project.userId of the relational
schema, so that authorization claims are expressible.
-/

/-- The four-state classification of types/index.ts: PhotoSet. -/
inductive PhotoSet where
  | PENDING
  | BLURRY
  | CLEAN
  | FINAL
deriving DecidableEq, Repr

/-- A photo row (types/index.ts Photo, restricted to the fields the
triage core reads or writes).  ownerId models photo.project.userId. -/
structure Photo where
  id : String
  ownerId : String
  filename : String
  fileSize : Int
  blurScore : Option Int
  isBlurry : Bool
  qualityScore : Option Int
  hasFaces : Bool
  photoSet : PhotoSet
  isSelected : Bool
  createdAt : Int
  analyzedAt : Option Int
deriving DecidableEq, Repr

/-- Filters of types/index.ts PhotoFilters: the two required booleans and
the two optional fields. -/
structure PhotoFilters where
  showBlurry : Bool
  showSelected : Bool
  minQualityScore : Option Int
  hasFaces : Option Bool
deriving DecidableEq, Repr

/-- Sort key of types/index.ts PhotoSortBy. -/
inductive PhotoSortBy where
  | quality
  | time
  | name
  | size
deriving DecidableEq, Repr

/-- Sort direction of types/index.ts SortOrder. -/
inductive SortOrder where
  | asc
  | desc
deriving DecidableEq, Repr

/-- The photo store state (stores/photo-store.ts PhotoState data fields).
selectedIds models the Set of selected id strings as a list. -/
structure PhotoState where
  photos : List Photo
  selectedIds : List String
  currentPhotoIndex : Int
  currentSet : PhotoSet
  filters : PhotoFilters
  sortBy : PhotoSortBy
  sortOrder : SortOrder
deriving DecidableEq, Repr

/-- A Partial update of a Photo, restricted to the fields the triage
core patches through updatePhoto (photoSet and isSelected). -/
structure PhotoPatch where
  photoSet : Option PhotoSet
  isSelected : Option Bool
deriving DecidableEq, Repr

/-- Spread-merge of a partial photo update into a photo
(photo-store.ts updatePhoto: photo.id === id ? spread p, spread updates). -/
def applyPhotoPatch (q : PhotoPatch) (p : Photo) : Photo :=
  { p with
    photoSet := q.photoSet.getD p.photoSet
    isSelected := q.isSelected.getD p.isSelected }

/-- A Partial update of PhotoFilters (photo-store.ts setFilters takes
Partial of PhotoFilters and spread-merges it). -/
structure FiltersPatch where
  showBlurry : Option Bool
  showSelected : Option Bool
  minQualityScore : Option (Option Int)
  hasFaces : Option (Option Bool)
deriving DecidableEq, Repr

/-- Spread-merge of a filters patch (photo-store.ts setFilters). -/
def mergeFilters (f : PhotoFilters) (q : FiltersPatch) : PhotoFilters :=
  { showBlurry := q.showBlurry.getD f.showBlurry
    showSelected := q.showSelected.getD f.showSelected
    minQualityScore := q.minQualityScore.getD f.minQualityScore
    hasFaces := q.hasFaces.getD f.hasFaces }

/-- Comparator of String.localeCompare as used for the name sort key,
modelled as lexicographic comparison. -/
def compareStrings (a b : String) : Int :=
  if a < b then -1 else if b < a then 1 else 0

/-- The switch of photo-store.ts getFilteredPhotos over sortBy:
quality uses qualityScore with null coerced to 0, time uses
createdAt.getTime(), name uses filename comparison, size uses
Number(fileSize). -/
def comparePhotos (sb : PhotoSortBy) (a b : Photo) : Int :=
  match sb with
  | PhotoSortBy.quality => (a.qualityScore.getD 0) - (b.qualityScore.getD 0)
  | PhotoSortBy.time => a.createdAt - b.createdAt
  | PhotoSortBy.name => compareStrings a.filename b.filename
  | PhotoSortBy.size => a.fileSize - b.fileSize

/-- The full comparator passed to sort: the comparison when ascending,
its negation when descending. -/
def jsCompare (sb : PhotoSortBy) (so : SortOrder) (a b : Photo) : Int :=
  match so with
  | SortOrder.asc => comparePhotos sb a b
  | SortOrder.desc => -(comparePhotos sb a b)

/-- Sorting relation induced by the comparator: a stays weakly before b
when the comparator is nonpositive. -/
def photoLE (sb : PhotoSortBy) (so : SortOrder) (a b : Photo) : Prop :=
  jsCompare sb so a b ≤ 0

instance (sb : PhotoSortBy) (so : SortOrder) : DecidableRel (photoLE sb so) :=
  fun a b => inferInstanceAs (Decidable (jsCompare sb so a b ≤ 0))

/-- The filter pipeline of photo-store.ts getFilteredPhotos, before
sorting: restrict to the current set; apply the showBlurry filter except
on the BLURRY tab; then the optional quality floor and face filters. -/
def filteredList (st : PhotoState) : List Photo :=
  let f1 := st.photos.filter (fun p => decide (p.photoSet = st.currentSet))
  let f2 :=
    if st.filters.showBlurry = false ∧ st.currentSet ≠ PhotoSet.BLURRY then
      f1.filter (fun p => decide (p.isBlurry = false))
    else f1
  let f3 :=
    match st.filters.minQualityScore with
    | some m =>
        f2.filter (fun p =>
          match p.qualityScore with
          | some q => decide (m ≤ q)
          | none => false)
    | none => f2
  match st.filters.hasFaces with
  | some hf => f3.filter (fun p => decide (p.hasFaces = hf))
  | none => f3

/-- getFilteredPhotos of photo-store.ts: the filter pipeline followed by
the comparator sort (Array.prototype.sort is stable; a stable sort is
used here, and no theorem below depends on the order of ties). -/
def getFilteredPhotos (st : PhotoState) : List Photo :=
  List.insertionSort (photoLE st.sortBy st.sortOrder) (filteredList st)

/-- setPhotos of photo-store.ts: replaces the whole photos array and
resets currentPhotoIndex to 0; every other field is untouched. -/
def setPhotos (ps : List Photo) (st : PhotoState) : PhotoState :=
  { st with photos := ps, currentPhotoIndex := 0 }

/-- addPhoto of photo-store.ts: appends one photo. -/
def addPhoto (p : Photo) (st : PhotoState) : PhotoState :=
  { st with photos := st.photos ++ [p] }

/-- updatePhoto of photo-store.ts: merges the patch into every photo
whose id matches; the cursor and all other fields are untouched. -/
def updatePhoto (idv : String) (q : PhotoPatch) (st : PhotoState) : PhotoState :=
  { st with
    photos := st.photos.map (fun p => if p.id = idv then applyPhotoPatch q p else p) }

/-- setCurrentPhotoIndex of photo-store.ts: stores the index unclamped. -/
def setCurrentPhotoIndex (i : Int) (st : PhotoState) : PhotoState :=
  { st with currentPhotoIndex := i }

/-- nextPhoto of photo-store.ts: Math.min(index + 1, filtered.length - 1). -/
def nextPhoto (st : PhotoState) : PhotoState :=
  { st with
    currentPhotoIndex :=
      min (st.currentPhotoIndex + 1) (((getFilteredPhotos st).length : Int) - 1) }

/-- prevPhoto of photo-store.ts: Math.max(index - 1, 0). -/
def prevPhoto (st : PhotoState) : PhotoState :=
  { st with currentPhotoIndex := max (st.currentPhotoIndex - 1) 0 }

/-- setFilters of photo-store.ts: spread-merges the patch and resets the
cursor to 0. -/
def setFilters (q : FiltersPatch) (st : PhotoState) : PhotoState :=
  { st with filters := mergeFilters st.filters q, currentPhotoIndex := 0 }

/-- setCurrentSet of photo-store.ts: switches the active tab and resets
the cursor to 0. -/
def setCurrentSet (s : PhotoSet) (st : PhotoState) : PhotoState :=
  { st with currentSet := s, currentPhotoIndex := 0 }

/-- The initial store state of photo-store.ts (fields photos through
sortOrder as initialized in the create call). -/
def initialPhotoState : PhotoState :=
  { photos := []
    selectedIds := []
    currentPhotoIndex := 0
    currentSet := PhotoSet.CLEAN
    filters :=
      { showBlurry := true
        showSelected := true
        minQualityScore := none
        hasFaces := none }
    sortBy := PhotoSortBy.time
    sortOrder := SortOrder.desc }

/-- Indexing filteredPhotos[currentPhotoIndex] in PhotoGrid: undefined
for an out-of-range or negative index, a photo otherwise. -/
def currentPhotoOf (st : PhotoState) : Option Photo :=
  if st.currentPhotoIndex < 0 then none
  else (getFilteredPhotos st)[st.currentPhotoIndex.toNat]?

/-- The where clause of the POST move-to-final updateMany
(crop/route.ts lines 154 to 170): id in photoIds and photoSet in
BLURRY, CLEAN. -/
def qualifiesPromote (ids : List String) (p : Photo) : Prop :=
  p.id ∈ ids ∧ (p.photoSet = PhotoSet.BLURRY ∨ p.photoSet = PhotoSet.CLEAN)

instance (ids : List String) (p : Photo) : Decidable (qualifiesPromote ids p) :=
  inferInstanceAs
    (Decidable (p.id ∈ ids ∧ (p.photoSet = PhotoSet.BLURRY ∨ p.photoSet = PhotoSet.CLEAN)))

/-- The effect of the POST updateMany on the database: every matching
row gets photoSet FINAL and isSelected true; result.count is the number
of matching rows. -/
def applyMoveToFinal (ids : List String) (db : List Photo) : List Photo × Nat :=
  (db.map (fun p =>
      if qualifiesPromote ids p then
        { p with photoSet := PhotoSet.FINAL, isSelected := true }
      else p),
   db.countP (fun p => decide (qualifiesPromote ids p)))

/-- Result of a move-to-final handler: the 400 validation rejection for
a missing or empty photoIds array, or success carrying the new database
and the reported count. -/
inductive ApiResult where
  | badRequest
  | ok (db : List Photo) (count : Nat)
deriving DecidableEq, Repr

/-- The POST /api/photos/move-to-final handler (crop/route.ts lines 131
to 192): reject an empty id list with 400, otherwise run the updateMany
and report movedCount = result.count.  The handler reads no caller
identity (the authentication check is an unimplemented TODO at lines
145 to 149), so the function has no caller parameter. -/
def moveToFinalPOST (ids : List String) (db : List Photo) : ApiResult :=
  if ids.isEmpty then ApiResult.badRequest
  else ApiResult.ok (applyMoveToFinal ids db).1 (applyMoveToFinal ids db).2

/-- The where clause of the DELETE move-to-final findMany
(crop/route.ts lines 217 to 228): id in photoIds and photoSet FINAL. -/
def qualifiesDemote (ids : List String) (p : Photo) : Prop :=
  p.id ∈ ids ∧ p.photoSet = PhotoSet.FINAL

instance (ids : List String) (p : Photo) : Decidable (qualifiesDemote ids p) :=
  inferInstanceAs (Decidable (p.id ∈ ids ∧ p.photoSet = PhotoSet.FINAL))

/-- originalSet of crop/route.ts line 232: BLURRY when isBlurry, else
CLEAN. -/
def demoteTarget (p : Photo) : PhotoSet :=
  if p.isBlurry then PhotoSet.BLURRY else PhotoSet.CLEAN

/-- The effect of the DELETE per-photo updates on the database: every
row found by the findMany is moved to its recomputed original set with
isSelected false; the reported count is photos.length of the findMany. -/
def applyRemoveFromFinal (ids : List String) (db : List Photo) : List Photo × Nat :=
  (db.map (fun p =>
      if qualifiesDemote ids p then
        { p with photoSet := demoteTarget p, isSelected := false }
      else p),
   db.countP (fun p => decide (qualifiesDemote ids p)))

/-- The DELETE /api/photos/move-to-final handler (crop/route.ts lines
200 to 265): reject an empty id list with 400, otherwise apply the
per-photo updates and report removedCount.  Like the POST handler it
reads no caller identity (TODO at line 214). -/
def moveToFinalDELETE (ids : List String) (db : List Photo) : ApiResult :=
  if ids.isEmpty then ApiResult.badRequest
  else ApiResult.ok (applyRemoveFromFinal ids db).1 (applyRemoveFromFinal ids db).2

/-- The client state of the PhotoGrid component: the photo store plus
the isMoving useState flag guarding the triage operations. -/
structure Client where
  store : PhotoState
  isMoving : Bool
deriving DecidableEq, Repr

/-- A network call issued by moveToFinalSet: the POST (promote) or the
DELETE (demote) request for one photo id. -/
inductive NetOp where
  | promote (idv : String)
  | demote (idv : String)
deriving DecidableEq, Repr

/-- The optimistic promote patch of PhotoGrid line 239:
photoSet FINAL, isSelected true. -/
def clientPromotePatch : PhotoPatch :=
  { photoSet := some PhotoSet.FINAL, isSelected := some true }

/-- The optimistic demote patch of PhotoGrid lines 216 to 217: the
original set recomputed from isBlurry, isSelected false. -/
def clientDemotePatch (isB : Bool) : PhotoPatch :=
  { photoSet := some (if isB then PhotoSet.BLURRY else PhotoSet.CLEAN)
    isSelected := some false }

/-- Outcome of one settled moveToFinalSet invocation: the patched
store, the server database after the handler ran, and the network
calls issued. -/
structure RunOut where
  store : PhotoState
  db : List Photo
  calls : List NetOp
deriving DecidableEq, Repr

/-- The moveToFinalSet routine of PhotoGrid (lines 189 to 248) on its
success path, with both the server handler effect and the local
optimistic patch, as one settled step of the single-threaded event
system.  On the FINAL tab it issues the DELETE and patches the photo
found in the rendered filtered list; on BLURRY or CLEAN it issues the
POST and patches the photo to FINAL and selected; on any other tab
neither branch fires and nothing happens. -/
def moveToFinalSetRun (photoId : String) (st : PhotoState) (db : List Photo) : RunOut :=
  match st.currentSet with
  | PhotoSet.FINAL =>
      { store :=
          match (getFilteredPhotos st).find? (fun p => decide (p.id = photoId)) with
          | some photo => updatePhoto photoId (clientDemotePatch photo.isBlurry) st
          | none => st
        db := (applyRemoveFromFinal [photoId] db).1
        calls := [NetOp.demote photoId] }
  | PhotoSet.BLURRY =>
      { store := updatePhoto photoId clientPromotePatch st
        db := (applyMoveToFinal [photoId] db).1
        calls := [NetOp.promote photoId] }
  | PhotoSet.CLEAN =>
      { store := updatePhoto photoId clientPromotePatch st
        db := (applyMoveToFinal [photoId] db).1
        calls := [NetOp.promote photoId] }
  | PhotoSet.PENDING =>
      { store := st, db := db, calls := [] }

/-- Outcome of one settled A-key press. -/
structure TriageStep where
  client : Client
  db : List Photo
  calls : List NetOp
deriving DecidableEq, Repr

/-- The A-key handler of PhotoGrid (lines 262 to 267), settled: when a
current photo exists and no call is in flight, await moveToFinalSet on
the current photo id and then call nextPhoto; otherwise do nothing.
The isMoving flag is true only inside moveToFinalSet, so it is false
again once the press has settled. -/
def triageKeyA (c : Client) (db : List Photo) : TriageStep :=
  match currentPhotoOf c.store with
  | none => { client := c, db := db, calls := [] }
  | some photo =>
      if c.isMoving then { client := c, db := db, calls := [] }
      else
        let r := moveToFinalSetRun photo.id c.store db
        { client := { store := nextPhoto r.store, isMoving := false }
          db := r.db
          calls := r.calls }

/-- Outcome of the synchronous prefix of one A-key press: the client
after the part of the handler that runs before any network response,
and the network call issued, if any. -/
structure PressOut where
  client : Client
  call : Option NetOp
deriving DecidableEq, Repr

/-- The synchronous prefix of the A-key handler: the guard
(currentPhoto and not isMoving), then the prefix of moveToFinalSet up
to its first await - the isMoving re-check, setIsMoving(true) and
issuing the fetch.  On the PENDING tab moveToFinalSet has no await, so
the whole press (including the trailing nextPhoto) completes with no
network call and isMoving back to false. -/
def triagePressStart (c : Client) : PressOut :=
  match currentPhotoOf c.store with
  | none => { client := c, call := none }
  | some photo =>
      if c.isMoving then { client := c, call := none }
      else
        match c.store.currentSet with
        | PhotoSet.FINAL =>
            { client := { c with isMoving := true }, call := some (NetOp.demote photo.id) }
        | PhotoSet.BLURRY =>
            { client := { c with isMoving := true }, call := some (NetOp.promote photo.id) }
        | PhotoSet.CLEAN =>
            { client := { c with isMoving := true }, call := some (NetOp.promote photo.id) }
        | PhotoSet.PENDING =>
            { client := { c with store := nextPhoto c.store }, call := none }

/-- Modelled from the spec: the photo creation defaults live in the
prisma schema, which is not under src.  Spec section 3 says a photo is
created PENDING at upload, unanalyzed (analyzedAt null, scores null,
isBlurry meaningful only once analyzed) and unselected (the selection
invariant: isSelected true iff photoSet FINAL). -/
def uploadedPhoto (idv owner fname : String) (created fsize : Int) : Photo :=
  { id := idv
    ownerId := owner
    filename := fname
    fileSize := fsize
    blurScore := none
    isBlurry := false
    qualityScore := none
    hasFaces := false
    photoSet := PhotoSet.PENDING
    isSelected := false
    createdAt := created
    analyzedAt := none }

/-- Modelled from the spec: the AI analysis collaborator is an external
worker, not under src.  Spec section 6 says it writes back blurScore,
isBlurry, qualityScore and analyzedAt to the photo record, moving its
photoSet out of PENDING; section 3 says the destination is BLURRY or
CLEAN according to isBlurry. -/
def analysisApply (isB : Bool) (blur quality t : Int) (p : Photo) : Photo :=
  { p with
    isBlurry := isB
    blurScore := some blur
    qualityScore := some quality
    analyzedAt := some t
    photoSet := if isB then PhotoSet.BLURRY else PhotoSet.CLEAN }

/-- The selection invariant of spec section 3: isSelected true iff
photoSet FINAL. -/
def selInv (p : Photo) : Prop :=
  p.isSelected = true ↔ p.photoSet = PhotoSet.FINAL

instance (p : Photo) : Decidable (selInv p) :=
  inferInstanceAs (Decidable (p.isSelected = true ↔ p.photoSet = PhotoSet.FINAL))

/-- The selection invariant over a whole photo database. -/
def dbInv (db : List Photo) : Prop := ∀ p ∈ db, selInv p

instance (db : List Photo) : Decidable (dbInv db) :=
  inferInstanceAs (Decidable (∀ p ∈ db, selInv p))

/-- The selection invariant over the photos held by the store. -/
def storeInv (st : PhotoState) : Prop := dbInv st.photos

instance (st : PhotoState) : Decidable (storeInv st) :=
  inferInstanceAs (Decidable (dbInv st.photos))

/-- Validity of the cursor for the current filtered view of the active
set (spec section 3 invariant). -/
def cursorValid (st : PhotoState) : Prop :=
  0 ≤ st.currentPhotoIndex ∧ st.currentPhotoIndex < ((getFilteredPhotos st).length : Int)

instance (st : PhotoState) : Decidable (cursorValid st) :=
  inferInstanceAs
    (Decidable (0 ≤ st.currentPhotoIndex ∧
      st.currentPhotoIndex < ((getFilteredPhotos st).length : Int)))

/-- Row-wise effect promised for the promote batch: a qualifying row
becomes FINAL and selected with every other field unchanged; any other
row is bitwise untouched. -/
def promoteRowSpec (ids : List String) (p q : Photo) : Prop :=
  (qualifiesPromote ids p ∧ q = { p with photoSet := PhotoSet.FINAL, isSelected := true }) ∨
  (¬ qualifiesPromote ids p ∧ q = p)

/-- Full promise of the POST handler for a nonempty id list: success,
same database length, the row-wise effect at every index, and the
reported count equal to the number of qualifying rows. -/
def promotePostSpec (ids : List String) (db : List Photo) : Prop :=
  ∃ db2 n, moveToFinalPOST ids db = ApiResult.ok db2 n ∧
    db2.length = db.length ∧
    (∀ i, i < db.length →
      ∃ p q, db[i]? = some p ∧ db2[i]? = some q ∧ promoteRowSpec ids p q) ∧
    n = db.countP (fun p => decide (qualifiesPromote ids p))

/-- Row-wise effect promised for the demote operation: a qualifying row
moves to the set recomputed from isBlurry and becomes unselected, with
every other field unchanged; any other row is bitwise untouched. -/
def demoteRowSpec (ids : List String) (p q : Photo) : Prop :=
  (qualifiesDemote ids p ∧ q = { p with photoSet := demoteTarget p, isSelected := false }) ∨
  (¬ qualifiesDemote ids p ∧ q = p)

/-- Full promise of the DELETE handler for a nonempty id list: success,
same database length, the row-wise effect at every index, and the
reported count equal to the number of qualifying rows. -/
def demoteDeleteSpec (ids : List String) (db : List Photo) : Prop :=
  ∃ db2 n, moveToFinalDELETE ids db = ApiResult.ok db2 n ∧
    db2.length = db.length ∧
    (∀ i, i < db.length →
      ∃ p q, db[i]? = some p ∧ db2[i]? = some q ∧ demoteRowSpec ids p q) ∧
    n = db.countP (fun p => decide (qualifiesDemote ids p))

/-- Promise of one settled A-key press from a client with a current
photo and no call in flight: the DELETE (demote) is issued exactly on
the FINAL tab, the POST (promote) exactly on BLURRY or CLEAN, no call
on PENDING, and in every case the cursor afterwards is the old cursor
plus one clamped to the last index of the view recomputed after the
local patch. -/
def triageKeySpec (c : Client) (db : List Photo) (photo : Photo) : Prop :=
  (c.store.currentSet = PhotoSet.FINAL →
    (triageKeyA c db).calls = [NetOp.demote photo.id]) ∧
  ((c.store.currentSet = PhotoSet.BLURRY ∨ c.store.currentSet = PhotoSet.CLEAN) →
    (triageKeyA c db).calls = [NetOp.promote photo.id]) ∧
  (c.store.currentSet = PhotoSet.PENDING → (triageKeyA c db).calls = []) ∧
  (triageKeyA c db).client.store.currentPhotoIndex =
    min (c.store.currentPhotoIndex + 1)
      (((getFilteredPhotos (moveToFinalSetRun photo.id c.store db).store).length : Int) - 1)

/-- Promise of the single-flight guard: a first press issues a call and
raises isMoving, and a second press while that call is in flight
changes nothing and issues no call. -/
def singleFlightSpec (c : Client) : Prop :=
  (triagePressStart c).call.isSome = true ∧
  (triagePressStart c).client.isMoving = true ∧
  triagePressStart (triagePressStart c).client =
    { client := (triagePressStart c).client, call := none }

/-- Example photo row used by the concrete scenarios below; set,
blur flag, selection flag and capture time vary per scenario. -/
def samplePhoto (idv : String) (set : PhotoSet) (isB sel : Bool) (t : Int) : Photo :=
  { id := idv
    ownerId := "owner1"
    filename := idv ++ ".jpg"
    fileSize := 100
    blurScore := some 10
    isBlurry := isB
    qualityScore := some 50
    hasFaces := false
    photoSet := set
    isSelected := sel
    createdAt := t
    analyzedAt := some 1 }

/-- Scenario photo A: analyzed blurry, in the BLURRY set. -/
def photoA : Photo := samplePhoto "a" PhotoSet.BLURRY true false 3

/-- Scenario photo B: analyzed clean, in the CLEAN set. -/
def photoB : Photo := samplePhoto "b" PhotoSet.CLEAN false false 2

/-- Scenario photo C: not yet analyzed, in the PENDING set. -/
def photoC : Photo := samplePhoto "c" PhotoSet.PENDING false false 1

/-- Scenario photo D: in FINAL, originally blurry. -/
def photoD : Photo := samplePhoto "d" PhotoSet.FINAL true true 2

/-- Scenario photo E: in FINAL, originally clean. -/
def photoE : Photo := samplePhoto "e" PhotoSet.FINAL false true 1

/-- A photo whose owning project belongs to user alice. -/
def alicePhoto : Photo :=
  { samplePhoto "p1" PhotoSet.BLURRY true false 3 with ownerId := "alice" }

/-- Two clean photos used by the store scenarios. -/
def cleanPhotoP : Photo := samplePhoto "p" PhotoSet.CLEAN false false 10

/-- Second clean photo, captured earlier than cleanPhotoP. -/
def cleanPhotoQ : Photo := samplePhoto "q" PhotoSet.CLEAN false false 5

/-- Store showing the CLEAN tab after a sync delivered the two clean
photos (the initial state already views CLEAN). -/
def stateCleanTab : PhotoState :=
  setPhotos [cleanPhotoP, cleanPhotoQ] initialPhotoState

/-- Client on the CLEAN tab with no call in flight. -/
def clientCleanTab : Client := { store := stateCleanTab, isMoving := false }

/-- The CLEAN-tab store after a click selected the photo at index 1
(handlePhotoClick calls setCurrentPhotoIndex with the card index). -/
def stateCursorOne : PhotoState := setCurrentPhotoIndex 1 stateCleanTab

/-- Three photos in FINAL, viewed on the FINAL tab. -/
def finalPhotoF : Photo := samplePhoto "f" PhotoSet.FINAL false true 30

/-- Second FINAL photo. -/
def finalPhotoG : Photo := samplePhoto "g" PhotoSet.FINAL false true 20

/-- Third FINAL photo. -/
def finalPhotoH : Photo := samplePhoto "h" PhotoSet.FINAL false true 10

/-- Store showing the FINAL tab over the three FINAL photos, cursor at
the first card. -/
def stateFinalTab : PhotoState :=
  setCurrentSet PhotoSet.FINAL
    (setPhotos [finalPhotoF, finalPhotoG, finalPhotoH] initialPhotoState)

/-- Client on the FINAL tab with no call in flight. -/
def clientFinalTab : Client := { store := stateFinalTab, isMoving := false }

/-- Photo G as the server knew it before a promote: in CLEAN. -/
def photoGpre : Photo := samplePhoto "g8" PhotoSet.CLEAN false false 7

/-- Store after the promote of photo G succeeded and its optimistic
patch was applied locally (photo G now FINAL in the store). -/
def stateAfterLocalPromote : PhotoState :=
  updatePhoto "g8" clientPromotePatch (setPhotos [photoGpre] initialPhotoState)

/-- The local patch applied inside moveToFinalSet never touches the
cursor: updatePhoto only rewrites the photos array. -/
theorem moveToFinalSetRun_currentPhotoIndex (photoId : String) (st : PhotoState)
    (db : List Photo) :
    (moveToFinalSetRun photoId st db).store.currentPhotoIndex = st.currentPhotoIndex := by
  unfold moveToFinalSetRun
  cases hset : st.currentSet
  · rfl
  · simp [updatePhoto]
  · simp [updatePhoto]
  · cases hf : (getFilteredPhotos st).find? (fun p => decide (p.id = photoId)) <;>
      simp [updatePhoto]

/-- C10: setPhotos, the replaceAll operation run on every sync tick,
replaces the photos list, resets the cursor to 0, and leaves the
selection id set, the active set tab, the filters, and the sort key and
direction unchanged, for every input list. -/
theorem C10_setPhotos_frame (st : PhotoState) (ps : List Photo) :
    (setPhotos ps st).photos = ps ∧
    (setPhotos ps st).currentPhotoIndex = 0 ∧
    (setPhotos ps st).selectedIds = st.selectedIds ∧
    (setPhotos ps st).currentSet = st.currentSet ∧
    (setPhotos ps st).filters = st.filters ∧
    (setPhotos ps st).sortBy = st.sortBy ∧
    (setPhotos ps st).sortOrder = st.sortOrder :=
  ⟨rfl, rfl, rfl, rfl, rfl, rfl, rfl⟩

/-- C8 counterexample: photo G has already been patched to FINAL
locally after its promote succeeded; applying an overlapping sync
tick response that still carries the pre-promote server state (G in
CLEAN) resets the photoSet of G back to CLEAN, its pre-promote value.
This refutes the claim that such a tick cannot reset it. -/
theorem C8_stale_sync_resets_promoted_photo :
    stateAfterLocalPromote.photos.map Photo.photoSet = [PhotoSet.FINAL] ∧
    (setPhotos [photoGpre] stateAfterLocalPromote).photos.map Photo.photoSet =
      [PhotoSet.CLEAN] ∧
    photoGpre.photoSet = PhotoSet.CLEAN := by decide

/-- C8 amended: applying a sync tick response replaces the photo list
wholesale with the response content; every photo record, including one
just patched by a promote, afterwards holds exactly the values of the
response, with no per-photo reconciliation or suppression of stale
responses. -/
theorem C8_sync_tick_wholesale_replace (st : PhotoState) (ps : List Photo) :
    (setPhotos ps st).photos = ps ∧
    ∀ idv : String,
      (setPhotos ps st).photos.find? (fun p => decide (p.id = idv)) =
        ps.find? (fun p => decide (p.id = idv)) :=
  ⟨rfl, fun _ => rfl⟩

/-- C9 counterexample: with two CLEAN photos in view and the cursor on
index 1, the optimistic promote patch of the second photo (updatePhoto,
as issued after a click or keypress on it) removes it from the CLEAN
view but leaves the cursor at 1, which is no longer a valid index of
the one-element view.  This refutes the claim that every operation that
changes the filtered view resets or clamps the cursor. -/
theorem C9_update_photo_breaks_cursor :
    cursorValid stateCursorOne ∧
    ¬ cursorValid (updatePhoto "q" clientPromotePatch stateCursorOne) := by decide

/-- C9 amended: setPhotos, setCurrentSet and setFilters reset the
cursor to 0 and nextPhoto and prevPhoto clamp it, but updatePhoto
leaves the cursor unchanged even when the patch removes the photo from
the active view, and setCurrentPhotoIndex stores its argument
unclamped, so the cursor can be out of range until a later reset or
clamped navigation. -/
theorem C9_cursor_reset_and_clamp :
    (∀ st ps, (setPhotos ps st).currentPhotoIndex = 0) ∧
    (∀ st s, (setCurrentSet s st).currentPhotoIndex = 0) ∧
    (∀ st q, (setFilters q st).currentPhotoIndex = 0) ∧
    (∀ st, (nextPhoto st).currentPhotoIndex =
      min (st.currentPhotoIndex + 1) (((getFilteredPhotos st).length : Int) - 1)) ∧
    (∀ st, (prevPhoto st).currentPhotoIndex = max (st.currentPhotoIndex - 1) 0) ∧
    (∀ st idv q, (updatePhoto idv q st).currentPhotoIndex = st.currentPhotoIndex) ∧
    (∀ st i, (setCurrentPhotoIndex i st).currentPhotoIndex = i) :=
  ⟨fun _ _ => rfl, fun _ _ => rfl, fun _ _ => rfl, fun _ => rfl, fun _ => rfl,
   fun _ _ _ => rfl, fun _ _ => rfl⟩

/-- C5: evaluation of both move-to-final handlers at a photo owned by
user alice.  Neither embedded handler takes or reads any caller
identity, mirroring the source, whose authentication check is an
unimplemented TODO; the POST moves the photo of alice to FINAL and the
DELETE moves it back, both reporting success with count 1, for a
request that no owner ever authorized. -/
theorem C5_move_to_final_ignores_ownership :
    moveToFinalPOST ["p1"] [alicePhoto] =
      ApiResult.ok [{ alicePhoto with photoSet := PhotoSet.FINAL, isSelected := true }] 1 ∧
    moveToFinalDELETE ["p1"]
        [{ alicePhoto with photoSet := PhotoSet.FINAL, isSelected := true }] =
      ApiResult.ok [alicePhoto] 1 := by decide

/-- C1: the selection invariant (isSelected true iff photoSet FINAL)
holds after every operation of the triage core settles: it is preserved
by the promote batch and the demote updates on the server database, by
sync reconciliation (setPhotos of an invariant-satisfying server list),
by both optimistic client patches, and by addPhoto of an uploaded
photo; a freshly uploaded photo satisfies it, and the arrival of an AI
analysis result on a PENDING photo preserves it. -/
theorem C1_selection_invariant :
    (∀ db ids, dbInv db → dbInv (applyMoveToFinal ids db).1) ∧
    (∀ db ids, dbInv db → dbInv (applyRemoveFromFinal ids db).1) ∧
    (∀ st ps, dbInv ps → storeInv (setPhotos ps st)) ∧
    (∀ st idv, storeInv st → storeInv (updatePhoto idv clientPromotePatch st)) ∧
    (∀ st idv isB, storeInv st → storeInv (updatePhoto idv (clientDemotePatch isB) st)) ∧
    (∀ st p, storeInv st → selInv p → storeInv (addPhoto p st)) ∧
    (∀ idv owner fname created fsize, selInv (uploadedPhoto idv owner fname created fsize)) ∧
    (∀ p isB blur quality t, p.photoSet = PhotoSet.PENDING → selInv p →
      selInv (analysisApply isB blur quality t p)) := by
  refine ⟨?_, ?_, ?_, ?_, ?_, ?_, ?_, ?_⟩
  · intro db ids h p hp
    simp only [applyMoveToFinal] at hp
    rcases List.mem_map.mp hp with ⟨q, hq, rfl⟩
    by_cases hc : qualifiesPromote ids q
    · simp [selInv, if_pos hc]
    · simpa [selInv, if_neg hc] using h q hq
  · intro db ids h p hp
    simp only [applyRemoveFromFinal] at hp
    rcases List.mem_map.mp hp with ⟨q, hq, rfl⟩
    by_cases hc : qualifiesDemote ids q
    · cases hb : q.isBlurry <;> simp [selInv, if_pos hc, demoteTarget, hb]
    · simpa [selInv, if_neg hc] using h q hq
  · intro st ps h
    exact h
  · intro st idv h p hp
    rcases List.mem_map.mp hp with ⟨q, hq, rfl⟩
    by_cases hc : q.id = idv
    · simp [selInv, if_pos hc, applyPhotoPatch, clientPromotePatch]
    · simpa [selInv, if_neg hc] using h q hq
  · intro st idv isB h p hp
    rcases List.mem_map.mp hp with ⟨q, hq, rfl⟩
    by_cases hc : q.id = idv
    · cases isB <;> simp [selInv, if_pos hc, applyPhotoPatch, clientDemotePatch]
    · simpa [selInv, if_neg hc] using h q hq
  · intro st p h hp q hq
    rcases List.mem_append.mp hq with hq1 | hq2
    · exact h q hq1
    · rwa [List.mem_singleton.mp hq2]
  · intro idv owner fname created fsize
    simp [selInv, uploadedPhoto]
  · intro p isB blur quality t hpend hsel
    have hfalse : p.isSelected = false := by
      cases hb : p.isSelected
      · rfl
      · have h2 := hsel.mp hb
        rw [hpend] at h2
        exact absurd h2 (by decide)
    cases isB <;> simp [selInv, analysisApply, hfalse]

/-- C1 witness: the invariant holds for a concrete database of a BLURRY
and a PENDING photo and is preserved by a concrete promote batch. -/
theorem C1_selection_invariant_witness :
    dbInv [photoA, photoC] ∧ dbInv (applyMoveToFinal ["a"] [photoA, photoC]).1 :=
  ⟨by decide, C1_selection_invariant.1 [photoA, photoC] ["a"] (by decide)⟩

/-- C2: for a photo id whose matching rows are all in BLURRY or CLEAN
and are classified consistently with their immutable isBlurry flag (as
the data model guarantees: BLURRY iff isBlurry), promoting the id and
then immediately demoting it returns every such row to its original
photoSet, with isSelected false, and leaves every other row untouched:
demotion recomputes the destination from isBlurry, not from history. -/
theorem C2_promote_demote_roundtrip (db : List Photo) (pid : String)
    (h : ∀ q ∈ db, q.id = pid →
      (q.photoSet = PhotoSet.BLURRY ∨ q.photoSet = PhotoSet.CLEAN) ∧
      (q.photoSet = PhotoSet.BLURRY ↔ q.isBlurry = true)) :
    (applyRemoveFromFinal [pid] (applyMoveToFinal [pid] db).1).1 =
      db.map (fun q => if q.id = pid then { q with isSelected := false } else q) := by
  simp only [applyMoveToFinal, applyRemoveFromFinal, List.map_map]
  refine List.map_congr_left ?_
  intro q hq
  simp only [Function.comp]
  by_cases hid : q.id = pid
  · obtain ⟨hset, hcons⟩ := h q hq hid
    have hqual : qualifiesPromote [pid] q := ⟨by simp [hid], hset⟩
    rw [if_pos hqual, if_pos hid]
    have hqd : qualifiesDemote [pid]
        { q with photoSet := PhotoSet.FINAL, isSelected := true } :=
      ⟨by simp [hid], rfl⟩
    rw [if_pos hqd]
    rcases hset with hb | hc
    · have hib : q.isBlurry = true := hcons.mp hb
      simp [demoteTarget, hib, hb]
    · have hib : q.isBlurry = false := by
        cases hbb : q.isBlurry
        · rfl
        · have h2 := hcons.mpr hbb
          rw [hc] at h2
          exact absurd h2 (by decide)
      simp [demoteTarget, hib, hc]
  · have hnq : ¬ qualifiesPromote [pid] q := by
      intro hcon
      exact hid (by simpa using hcon.1)
    have hnd : ¬ qualifiesDemote [pid] q := by
      intro hcon
      exact hid (by simpa using hcon.1)
    rw [if_neg hnq, if_neg hnd, if_neg hid]

/-- C2 witness: the round trip at a concrete database holding the
blurry photo a (in BLURRY) and the clean photo b (in CLEAN). -/
theorem C2_promote_demote_roundtrip_witness :
    (∀ q ∈ [photoA, photoB], q.id = "a" →
      (q.photoSet = PhotoSet.BLURRY ∨ q.photoSet = PhotoSet.CLEAN) ∧
      (q.photoSet = PhotoSet.BLURRY ↔ q.isBlurry = true)) ∧
    (applyRemoveFromFinal ["a"] (applyMoveToFinal ["a"] [photoA, photoB]).1).1 =
      [photoA, photoB].map
        (fun q => if q.id = "a" then { q with isSelected := false } else q) :=
  ⟨by decide, C2_promote_demote_roundtrip [photoA, photoB] "a" (by decide)⟩

/-- C3: for a nonempty id list the POST handler succeeds and affects
exactly the requested ids resolving to a BLURRY or CLEAN photo: each
such row becomes FINAL and selected in the one batch, every other row
is bitwise untouched, and the reported count is the number of
qualifying rows. -/
theorem C3_promote_exact_batch (ids : List String) (db : List Photo) (hne : ids ≠ []) :
    promotePostSpec ids db := by
  unfold promotePostSpec moveToFinalPOST
  rw [if_neg (by simp [List.isEmpty_iff, hne])]
  refine ⟨_, _, rfl, by simp [applyMoveToFinal], ?_, rfl⟩
  intro i hi
  refine ⟨db.get ⟨i, hi⟩,
    (if qualifiesPromote ids (db.get ⟨i, hi⟩) then
      { db.get ⟨i, hi⟩ with photoSet := PhotoSet.FINAL, isSelected := true }
     else db.get ⟨i, hi⟩), ?_, ?_, ?_⟩
  · exact List.getElem?_eq_getElem hi
  · simp [applyMoveToFinal, List.getElem?_eq_getElem hi]
  · by_cases hc : qualifiesPromote ids (db.get ⟨i, hi⟩)
    · exact Or.inl ⟨hc, by rw [if_pos hc]⟩
    · exact Or.inr ⟨hc, by rw [if_neg hc]⟩

/-- C3 witness: the claim scenario - photos A (BLURRY), B (CLEAN),
C (PENDING); promoting ids a and c reports movedCount 1, makes A FINAL
and selected, and leaves B and C untouched. -/
theorem C3_promote_exact_batch_witness :
    (["a", "c"] ≠ ([] : List String)) ∧
    promotePostSpec ["a", "c"] [photoA, photoB, photoC] ∧
    moveToFinalPOST ["a", "c"] [photoA, photoB, photoC] =
      ApiResult.ok
        [{ photoA with photoSet := PhotoSet.FINAL, isSelected := true }, photoB, photoC]
        1 :=
  ⟨by decide, C3_promote_exact_batch ["a", "c"] [photoA, photoB, photoC] (by decide),
   by decide⟩

/-- C4: for a nonempty id list the DELETE handler succeeds and affects
exactly the requested ids whose photo is currently FINAL: each such row
moves to BLURRY when its isBlurry flag is set and to CLEAN otherwise,
with isSelected false, every other row is bitwise untouched, and the
reported count is the number of qualifying rows. -/
theorem C4_demote_exact_effect (ids : List String) (db : List Photo) (hne : ids ≠ []) :
    demoteDeleteSpec ids db := by
  unfold demoteDeleteSpec moveToFinalDELETE
  rw [if_neg (by simp [List.isEmpty_iff, hne])]
  refine ⟨_, _, rfl, by simp [applyRemoveFromFinal], ?_, rfl⟩
  intro i hi
  refine ⟨db.get ⟨i, hi⟩,
    (if qualifiesDemote ids (db.get ⟨i, hi⟩) then
      { db.get ⟨i, hi⟩ with
          photoSet := demoteTarget (db.get ⟨i, hi⟩), isSelected := false }
     else db.get ⟨i, hi⟩), ?_, ?_, ?_⟩
  · exact List.getElem?_eq_getElem hi
  · simp [applyRemoveFromFinal, List.getElem?_eq_getElem hi]
  · by_cases hc : qualifiesDemote ids (db.get ⟨i, hi⟩)
    · exact Or.inl ⟨hc, by rw [if_pos hc]⟩
    · exact Or.inr ⟨hc, by rw [if_neg hc]⟩

/-- C4 witness: the claim scenario - photos D (FINAL, originally
blurry) and E (FINAL, originally clean); demoting both moves D to
BLURRY and E to CLEAN, both unselected, and reports removedCount 2. -/
theorem C4_demote_exact_effect_witness :
    (["d", "e"] ≠ ([] : List String)) ∧
    demoteDeleteSpec ["d", "e"] [photoD, photoE] ∧
    moveToFinalDELETE ["d", "e"] [photoD, photoE] =
      ApiResult.ok
        [{ photoD with photoSet := PhotoSet.BLURRY, isSelected := false },
         { photoE with photoSet := PhotoSet.CLEAN, isSelected := false }]
        2 :=
  ⟨by decide, C4_demote_exact_effect ["d", "e"] [photoD, photoE] (by decide), by decide⟩

/-- C6 counterexample: on the FINAL tab with three FINAL photos and the
cursor on the first, pressing the triage key demotes the first photo
and then moves the cursor from 0 to 1 (nextPhoto runs unconditionally
in the A-key handler).  This refutes the claim that the cursor does not
move when the active set is FINAL. -/
theorem C6_cursor_moves_on_final_tab :
    clientFinalTab.store.currentSet = PhotoSet.FINAL ∧
    clientFinalTab.isMoving = false ∧
    currentPhotoOf clientFinalTab.store = some finalPhotoF ∧
    clientFinalTab.store.currentPhotoIndex = 0 ∧
    (triageKeyA clientFinalTab
        [finalPhotoF, finalPhotoG, finalPhotoH]).client.store.currentPhotoIndex = 1 := by
  decide

/-- C6 amended: with a current photo and no call in flight, the triage
key invokes demote exactly when the active set is FINAL, promote
exactly when it is BLURRY or CLEAN, and nothing on PENDING; afterwards
the cursor always advances by one, clamped to the last index of the
view recomputed after the local patch - including when the active set
is FINAL. -/
theorem C6_triage_key_always_advances (c : Client) (db : List Photo) (photo : Photo)
    (hm : c.isMoving = false) (hc : currentPhotoOf c.store = some photo) :
    triageKeySpec c db photo := by
  unfold triageKeySpec triageKeyA
  simp only [hc, hm]
  refine ⟨?_, ?_, ?_, ?_⟩
  · intro hf
    simp [moveToFinalSetRun, hf]
  · intro hbc
    rcases hbc with hb | hcl
    · simp [moveToFinalSetRun, hb]
    · simp [moveToFinalSetRun, hcl]
  · intro hp
    simp [moveToFinalSetRun, hp]
  · simp [nextPhoto, moveToFinalSetRun_currentPhotoIndex]

/-- C6 amended witness: the amended behavior at a concrete client on
the CLEAN tab with two photos and the cursor on the first. -/
theorem C6_triage_key_always_advances_witness :
    clientCleanTab.isMoving = false ∧
    currentPhotoOf clientCleanTab.store = some cleanPhotoP ∧
    triageKeySpec clientCleanTab [cleanPhotoP, cleanPhotoQ] cleanPhotoP :=
  ⟨by decide, by decide,
   C6_triage_key_always_advances clientCleanTab [cleanPhotoP, cleanPhotoQ] cleanPhotoP
     (by decide) (by decide)⟩

/-- C7: the triage key handler is single-flight: from a client with a
current photo, no call in flight, and an active set on which the key
issues a network call, the first press issues the call and raises
isMoving, and a second press while that call is still in flight leaves
the client unchanged and issues no network call. -/
theorem C7_single_flight_guard (c : Client) (photo : Photo)
    (hc : currentPhotoOf c.store = some photo) (hm : c.isMoving = false)
    (hs : c.store.currentSet ≠ PhotoSet.PENDING) :
    singleFlightSpec c := by
  unfold singleFlightSpec
  cases hset : c.store.currentSet with
  | PENDING => exact absurd hset hs
  | BLURRY => simp [triagePressStart, hc, hm, hset]
  | CLEAN => simp [triagePressStart, hc, hm, hset]
  | FINAL => simp [triagePressStart, hc, hm, hset]

/-- C7 witness: the single-flight guarantee at a concrete client on the
CLEAN tab. -/
theorem C7_single_flight_guard_witness :
    currentPhotoOf clientCleanTab.store = some cleanPhotoP ∧
    clientCleanTab.isMoving = false ∧
    clientCleanTab.store.currentSet ≠ PhotoSet.PENDING ∧
    singleFlightSpec clientCleanTab :=
  ⟨by decide, by decide, by decide,
   C7_single_flight_guard clientCleanTab cleanPhotoP (by decide) (by decide) (by decide)⟩
